import Mathlib

/-!
Verification development for the feedback-portal backend
(`feedback-portal-backend/models/ticket.py` and
`feedback-portal-backend/database.py`).

The relational store (SQLite) is embedded as an explicit state record `DB`
holding the rows of the four core tables (`tickets`, `ticket_history`,
`ticket_tags`, `customers`) together with the autoincrement counters.
Each repository operation of the `Ticket` class is translated to a pure
function on `DB`; `CURRENT_TIMESTAMP` becomes an explicit `now : Nat`
argument supplied at each call.  Fallible operations (CHECK-constraint or
foreign-key violations, which raise in the source) return `Option`.
Python string methods `.lower()` / `.strip()` / `.split(',')` and SQLite
`GROUP_CONCAT` / `LIKE '%x%'` are modelled by executable functions over
character lists.
-/

namespace FeedbackPortal

/-! ### String helpers (Python / SQLite semantics) -/

/-- Python `str.lower` (ASCII case mapping, as SQLite `LIKE` is
ASCII-case-insensitive). -/
def pyLower (s : String) : String := (s.toList.map Char.toLower).asString

/-- Python `str.strip`: drop leading and trailing whitespace. -/
def pyStrip (s : String) : String :=
  ((s.toList.dropWhile Char.isWhitespace).reverse.dropWhile Char.isWhitespace).reverse.asString

/-- `tag_name.lower().strip()` from `add_tag` / `remove_tag`. -/
def normTag (s : String) : String := pyStrip (pyLower s)

/-- Is `needle` a contiguous run inside `hay`? -/
def infixOf (needle hay : List Char) : Bool :=
  match hay with
  | [] => needle.isEmpty
  | _ :: t => needle.isPrefixOf hay || infixOf needle t

/-- SQLite `field LIKE '%pat%'` (case-insensitive substring). -/
def likeCI (pat field : String) : Bool :=
  infixOf (pyLower pat).toList (pyLower field).toList

/-- Split a character list at every comma, keeping empty pieces,
as Python `s.split(',')` does. -/
def splitC : List Char → List (List Char)
  | [] => [[]]
  | c :: rest =>
    if c = ',' then [] :: splitC rest
    else
      match splitC rest with
      | [] => [[c]]
      | h :: t => (c :: h) :: t

/-- Join character lists with a comma separator (SQLite `GROUP_CONCAT`). -/
def joinC : List (List Char) → List Char
  | [] => []
  | [x] => x
  | x :: xs => x ++ ',' :: joinC xs

/-- Python `s.split(',')` on strings. -/
def pySplitComma (s : String) : List String := (splitC s.toList).map List.asString

/-- SQLite `GROUP_CONCAT(names)` with the default `,` separator. -/
def groupConcat (names : List String) : String :=
  (joinC (names.map String.toList)).asString

/-! ### Table rows and store state (schema of `database.init_db`) -/

/-- Row of the `tickets` table.  Timestamps are `Nat`; `rating`,
`assigned_to`, `resolution_notes`, `resolved_at` are nullable. -/
structure TicketRow where
  ticket_id : Nat
  name : String
  email : String
  product : String
  rating : Option Int
  type : String
  message : String
  status : String
  priority : String
  assigned_to : Option String
  resolution_notes : Option String
  created_at : Nat
  updated_at : Nat
  resolved_at : Option Nat
deriving Repr, DecidableEq

/-- Row of the `ticket_history` table. -/
structure HistoryRow where
  history_id : Nat
  ticket_id : Nat
  field_changed : String
  old_value : Option String
  new_value : Option String
  changed_by : String
  changed_at : Nat
deriving Repr, DecidableEq

/-- Row of the `ticket_tags` table.  Note: the schema declares no UNIQUE
constraint on `(ticket_id, tag_name)`. -/
structure TagRow where
  tag_id : Nat
  ticket_id : Nat
  tag_name : String
  created_at : Nat
deriving Repr, DecidableEq

/-- Row of the `customers` table (`email` UNIQUE). -/
structure CustomerRow where
  customer_id : Nat
  name : String
  email : String
  phone : Option String
  company : Option String
  total_tickets : Int
  created_at : Nat
  last_interaction : Option Nat
deriving Repr, DecidableEq

/-- The relational store: rows of the four core tables plus the
autoincrement counters for their integer primary keys. -/
structure DB where
  tickets : List TicketRow
  history : List HistoryRow
  tags : List TagRow
  customers : List CustomerRow
  nextTicketId : Nat
  nextHistoryId : Nat
  nextTagId : Nat
  nextCustomerId : Nat
deriving Repr, DecidableEq

/-- A freshly initialised store (`init_db`: empty core tables). -/
def emptyDB : DB :=
  { tickets := [], history := [], tags := [], customers := []
    nextTicketId := 1, nextHistoryId := 1, nextTagId := 1, nextCustomerId := 1 }

/-! ### CHECK constraints from the schema -/

def validStatuses : List String := ["Pending", "In Review", "Resolved"]

def validTypes : List String := ["feedback", "complaint", "suggestion", "praise", "bug"]

def validPriorities : List String := ["Low", "Medium", "High", "Critical"]

/-- `CHECK(rating >= 1 AND rating <= 5)` (NULL passes the check). -/
def ratingOk (r : Option Int) : Bool :=
  match r with
  | none => true
  | some v => decide (1 ≤ v) && decide (v ≤ 5)

/-! ### Python truthiness of filter values

`get_all` / `get_count` guard each filter with `if filters.get(key):`,
so an absent key, `None`, an empty string, or a zero number all disable
the corresponding predicate. -/

def activeStr : Option String → Option String
  | some s => if s = "" then none else some s
  | none => none

def activeNat : Option Nat → Option Nat
  | some n => if n = 0 then none else some n
  | none => none

def activeInt : Option Int → Option Int
  | some i => if i = 0 then none else some i
  | none => none

/-- The sparse filter dictionary accepted by `get_all` / `get_count`. -/
structure Filters where
  status : Option String
  type : Option String
  priority : Option String
  assigned_to : Option String
  search : Option String
  date_from : Option Nat
  date_to : Option Nat
  rating_min : Option Int
  rating_max : Option Int
deriving Repr, DecidableEq

/-- The filter dictionary with every key absent. -/
def noFilters : Filters :=
  { status := none, type := none, priority := none, assigned_to := none
    search := none, date_from := none, date_to := none
    rating_min := none, rating_max := none }

/-- Free-text search of `get_all` / `get_count`:
`name LIKE ? OR email LIKE ? OR message LIKE ? OR product LIKE ?`. -/
def searchMatch (s : String) (t : TicketRow) : Bool :=
  likeCI s t.name || likeCI s t.email || likeCI s t.message || likeCI s t.product

/-- The WHERE clause built by `get_all` (conjunction of the active
filters; comparisons with a NULL column are false, as in SQL). -/
def ticketMatches (f : Filters) (t : TicketRow) : Bool :=
  (match activeStr f.status with | some v => t.status == v | none => true) &&
  (match activeStr f.type with | some v => t.type == v | none => true) &&
  (match activeStr f.priority with | some v => t.priority == v | none => true) &&
  (match activeStr f.assigned_to with
    | some v => match t.assigned_to with | some a => a == v | none => false
    | none => true) &&
  (match activeStr f.search with | some v => searchMatch v t | none => true) &&
  (match activeNat f.date_from with | some v => decide (v ≤ t.created_at) | none => true) &&
  (match activeNat f.date_to with | some v => decide (t.created_at ≤ v) | none => true) &&
  (match activeInt f.rating_min with
    | some v => match t.rating with | some r => decide (v ≤ r) | none => false
    | none => true) &&
  (match activeInt f.rating_max with
    | some v => match t.rating with | some r => decide (r ≤ v) | none => false
    | none => true)

/-- The WHERE clause built by `get_count`: only `status`, `type` and
`search` are consulted (the remaining filter keys are ignored there). -/
def countMatches (f : Filters) (t : TicketRow) : Bool :=
  (match activeStr f.status with | some v => t.status == v | none => true) &&
  (match activeStr f.type with | some v => t.type == v | none => true) &&
  (match activeStr f.search with | some v => searchMatch v t | none => true)

/-! ### Sorting helpers (ORDER BY clauses) -/

/-- Insert into a list kept in descending `created_at` order. -/
def insertByCreatedDesc (t : TicketRow) : List TicketRow → List TicketRow
  | [] => [t]
  | u :: us =>
    if u.created_at ≤ t.created_at then t :: u :: us
    else u :: insertByCreatedDesc t us

/-- `ORDER BY created_at DESC`. -/
def sortByCreatedDesc (l : List TicketRow) : List TicketRow :=
  l.foldr insertByCreatedDesc []

/-- Insert into a list kept in descending `changed_at` order. -/
def insertByChangedDesc (h : HistoryRow) : List HistoryRow → List HistoryRow
  | [] => [h]
  | u :: us =>
    if u.changed_at ≤ h.changed_at then h :: u :: us
    else u :: insertByChangedDesc h us

/-- `ORDER BY changed_at DESC`. -/
def sortByChangedDesc (l : List HistoryRow) : List HistoryRow :=
  l.foldr insertByChangedDesc []

/-- Insert into an ascending list of integers. -/
def insAsc (x : Int) : List Int → List Int
  | [] => [x]
  | y :: ys => if x ≤ y then x :: y :: ys else y :: insAsc x ys

/-- Sort integers ascending. -/
def sortAsc (l : List Int) : List Int := l.foldr insAsc []

/-- Collapse adjacent duplicates of a sorted list (GROUP BY key set). -/
def dedupSorted : List Int → List Int
  | [] => []
  | [x] => [x]
  | x :: y :: r => if x = y then dedupSorted (y :: r) else x :: dedupSorted (y :: r)

/-- `GROUP BY t.ticket_id`: keep one row per ticket id (first
occurrence), the ids already emitted carried in `seen`. -/
def dedupByIdAux (seen : List Nat) : List TicketRow → List TicketRow
  | [] => []
  | t :: rest =>
    if t.ticket_id ∈ seen then dedupByIdAux seen rest
    else t :: dedupByIdAux (t.ticket_id :: seen) rest

/-- `GROUP BY t.ticket_id`. -/
def dedupById (l : List TicketRow) : List TicketRow := dedupByIdAux [] l

/-! ### Derived views returned by the read operations -/

/-- The NULL-able `GROUP_CONCAT(tt.tag_name)` column followed by the
Python post-processing `row['tags'].split(',') if row['tags'] else []`. -/
def tagsField (names : List String) : List String :=
  let sqlValue : Option String :=
    match names with
    | [] => none
    | _ => some (groupConcat names)
  match sqlValue with
  | none => []
  | some s => if s = "" then [] else pySplitComma s

/-- Row shape returned by `get_by_id` (ticket columns joined with the
customer's `company`/`phone` and the aggregated tag list). -/
structure TicketView where
  ticket_id : Nat
  name : String
  email : String
  product : String
  rating : Option Int
  type : String
  message : String
  status : String
  priority : String
  assigned_to : Option String
  resolution_notes : Option String
  created_at : Nat
  updated_at : Nat
  resolved_at : Option Nat
  company : Option String
  phone : Option String
  tags : List String
deriving Repr, DecidableEq

/-- Row shape returned by `get_all` (no `phone` column there). -/
structure TicketListItem where
  ticket_id : Nat
  name : String
  email : String
  product : String
  rating : Option Int
  type : String
  message : String
  status : String
  priority : String
  assigned_to : Option String
  resolution_notes : Option String
  created_at : Nat
  updated_at : Nat
  resolved_at : Option Nat
  company : Option String
  tags : List String
deriving Repr, DecidableEq

/-- Statistics record: the fields of `get_statistics` the claims are
about (`total_tickets`, `average_rating`, `rating_distribution`). -/
structure Stats where
  total_tickets : Nat
  average_rating : ℚ
  rating_distribution : List (Int × Nat)
deriving Repr, DecidableEq

/-- Python `round(x, 2)` on the exact rational value. -/
def roundTo2 (q : ℚ) : ℚ := (round (q * 100) : ℤ) / 100

/-- The `WHERE created_at ...` date window of `get_statistics`
(`BETWEEN` when both bounds are truthy, one-sided otherwise). -/
def inWindow (date_from date_to : Option Nat) (t : TicketRow) : Bool :=
  match activeNat date_from, activeNat date_to with
  | some a, some b => decide (a ≤ t.created_at) && decide (t.created_at ≤ b)
  | some a, none => decide (a ≤ t.created_at)
  | none, some b => decide (t.created_at ≤ b)
  | none, none => true

/-- The ratings selected by the AVG / distribution queries:
`WHERE rating IS NOT NULL` plus the date window. -/
def ratedRatings (db : DB) (date_from date_to : Option Nat) : List Int :=
  (db.tickets.filter
    (fun t => t.rating.isSome && inWindow date_from date_to t)).filterMap (fun t => t.rating)

/-! ### The rows written by `create` and `update_status` -/

/-- The ticket row inserted by `Ticket.create` (schema defaults for
`status`, `assigned_to`, `resolution_notes`, `resolved_at` and the
timestamp columns). -/
def newTicketRow (db : DB) (now : Nat) (name email product : String)
    (rating : Option Int) (ticket_type message priority : String) : TicketRow :=
  { ticket_id := db.nextTicketId, name := name, email := email, product := product
    rating := rating, type := ticket_type, message := message
    status := "Pending", priority := priority
    assigned_to := none, resolution_notes := none
    created_at := now, updated_at := now, resolved_at := none }

/-- The `created` history row appended by `Ticket.create`. -/
def createdHistRow (db : DB) (now : Nat) : HistoryRow :=
  { history_id := db.nextHistoryId, ticket_id := db.nextTicketId
    field_changed := "created", old_value := none
    new_value := some "New ticket created", changed_by := "system"
    changed_at := now }

/-- The customer row written by the `INSERT OR REPLACE` upsert of
`Ticket.create`: only `name`, `email`, `total_tickets`,
`last_interaction` are supplied; `customer_id`, `phone`, `company`,
`created_at` take their column defaults. -/
def newCustomerRow (db : DB) (now : Nat) (name email : String) : CustomerRow :=
  { customer_id := db.nextCustomerId, name := name, email := email
    phone := none, company := none
    total_tickets :=
      ((db.customers.find? (fun c => c.email == email)).map
        (fun c => c.total_tickets)).getD 0 + 1
    created_at := now, last_interaction := some now }

/-- The per-row effect of the UPDATE statement of `update_status`. -/
def updTicket (id : Nat) (st : String) (a n : Option String) (now : Nat)
    (t : TicketRow) : TicketRow :=
  if t.ticket_id == id then
    { t with
      status := st
      updated_at := now
      assigned_to := match a with
        | some x => some x
        | none => t.assigned_to
      resolution_notes := match n with
        | some r => if r = "" then t.resolution_notes else some r
        | none => t.resolution_notes
      resolved_at := if st = "Resolved" then some now else t.resolved_at }
  else t

/-- The `status` history row appended by `update_status`. -/
def statusHistRow (db : DB) (id : Nat) (old st cb : String) (now : Nat) : HistoryRow :=
  { history_id := db.nextHistoryId, ticket_id := id
    field_changed := "status", old_value := some old
    new_value := some st, changed_by := cb, changed_at := now }

/-- The `assigned_to` history rows appended by `update_status`
(exactly one when the argument is supplied, none otherwise). -/
def assignedHistRows (db : DB) (id : Nat) (a : Option String) (cb : String)
    (now : Nat) : List HistoryRow :=
  match a with
  | some x =>
    [{ history_id := db.nextHistoryId + 1, ticket_id := id
       field_changed := "assigned_to", old_value := none
       new_value := some x, changed_by := cb, changed_at := now }]
  | none => []

namespace Ticket

/-- `Ticket.create`: insert the ticket row (status and priority from the
schema defaults / argument, CHECK constraints enforced), upsert the
customer rollup with `INSERT OR REPLACE` (the conflicting row on the
UNIQUE `email` is deleted and a fresh row is written whose unspecified
columns `phone` / `company` take their defaults), and append one
`created` history row.  A CHECK violation raises in the source, so the
embedding returns `none` there. -/
def create (db : DB) (now : Nat) (name email product : String) (rating : Option Int)
    (ticket_type message priority : String) : Option (DB × Nat) :=
  if ratingOk rating && validTypes.contains ticket_type
      && validPriorities.contains priority then
    let ticket_id := db.nextTicketId
    let newTicket : TicketRow :=
      { ticket_id := ticket_id, name := name, email := email, product := product
        rating := rating, type := ticket_type, message := message
        status := "Pending", priority := priority
        assigned_to := none, resolution_notes := none
        created_at := now, updated_at := now, resolved_at := none }
    let oldTotal : Int :=
      ((db.customers.find? (fun c => c.email == email)).map
        (fun c => c.total_tickets)).getD 0
    let newCustomer : CustomerRow :=
      { customer_id := db.nextCustomerId, name := name, email := email
        phone := none, company := none, total_tickets := oldTotal + 1
        created_at := now, last_interaction := some now }
    let newHist : HistoryRow :=
      { history_id := db.nextHistoryId, ticket_id := ticket_id
        field_changed := "created", old_value := none
        new_value := some "New ticket created", changed_by := "system"
        changed_at := now }
    some
      ({ tickets := db.tickets ++ [newTicket]
         history := db.history ++ [newHist]
         tags := db.tags
         customers := db.customers.filter (fun c => !(c.email == email)) ++ [newCustomer]
         nextTicketId := db.nextTicketId + 1
         nextHistoryId := db.nextHistoryId + 1
         nextTagId := db.nextTagId
         nextCustomerId := db.nextCustomerId + 1 }, ticket_id)
  else none

/-- `Ticket.get_by_id`: the ticket row joined with the customer (by
email) and with `GROUP_CONCAT` of its tag names, post-processed into a
tag list. -/
def get_by_id (db : DB) (ticket_id : Nat) : Option TicketView :=
  match db.tickets.find? (fun t => t.ticket_id == ticket_id) with
  | none => none
  | some t =>
    let c := db.customers.find? (fun c => c.email == t.email)
    let names := (db.tags.filter (fun g => g.ticket_id == t.ticket_id)).map
      (fun g => g.tag_name)
    some
      { ticket_id := t.ticket_id, name := t.name, email := t.email
        product := t.product, rating := t.rating, type := t.type
        message := t.message, status := t.status, priority := t.priority
        assigned_to := t.assigned_to, resolution_notes := t.resolution_notes
        created_at := t.created_at, updated_at := t.updated_at
        resolved_at := t.resolved_at
        company := c.bind (fun c => c.company)
        phone := c.bind (fun c => c.phone)
        tags := tagsField names }

/-- Project a ticket row to the `get_all` row shape. -/
def toListItem (db : DB) (t : TicketRow) : TicketListItem :=
  let c := db.customers.find? (fun c => c.email == t.email)
  let names := (db.tags.filter (fun g => g.ticket_id == t.ticket_id)).map
    (fun g => g.tag_name)
  { ticket_id := t.ticket_id, name := t.name, email := t.email
    product := t.product, rating := t.rating, type := t.type
    message := t.message, status := t.status, priority := t.priority
    assigned_to := t.assigned_to, resolution_notes := t.resolution_notes
    created_at := t.created_at, updated_at := t.updated_at
    resolved_at := t.resolved_at
    company := c.bind (fun c => c.company)
    tags := tagsField names }

/-- `Ticket.get_all`: filter, `GROUP BY t.ticket_id`, order by
`created_at DESC`, then `LIMIT`/`OFFSET` (the offset clause is only
emitted when a truthy limit is present, and Python truthiness ignores a
zero limit or offset). -/
def get_all (db : DB) (f : Filters) (limit offset : Option Nat) : List TicketListItem :=
  let rows := sortByCreatedDesc (dedupById (db.tickets.filter (ticketMatches f)))
  let paged :=
    match activeNat limit with
    | some n =>
      match activeNat offset with
      | some m => (rows.drop m).take n
      | none => rows.take n
    | none => rows
  paged.map (toListItem db)

/-- `Ticket.update_status`: reject an unrecognised label, reject a
missing ticket id (both by returning `false` with the store untouched);
otherwise update the row (refreshing `updated_at`, overwriting
`assigned_to` when supplied, `resolution_notes` when truthy, stamping
`resolved_at` when the new status is `Resolved`), append one `status`
history row carrying the old and new labels, and append an
`assigned_to` history row exactly when that argument was supplied. -/
def update_status (db : DB) (now : Nat) (ticket_id : Nat) (status : String)
    (assigned_to : Option String) (resolution_notes : Option String)
    (changed_by : String) : DB × Bool :=
  if !(validStatuses.contains status) then (db, false)
  else
    match db.tickets.find? (fun t => t.ticket_id == ticket_id) with
    | none => (db, false)
    | some cur =>
      let old_status := cur.status
      let upd : TicketRow → TicketRow := fun t =>
        if t.ticket_id == ticket_id then
          { t with
            status := status
            updated_at := now
            assigned_to := match assigned_to with
              | some a => some a
              | none => t.assigned_to
            resolution_notes := match resolution_notes with
              | some r => if r = "" then t.resolution_notes else some r
              | none => t.resolution_notes
            resolved_at := if status = "Resolved" then some now else t.resolved_at }
        else t
      let statusRow : HistoryRow :=
        { history_id := db.nextHistoryId, ticket_id := ticket_id
          field_changed := "status", old_value := some old_status
          new_value := some status, changed_by := changed_by, changed_at := now }
      let assignedRows : List HistoryRow :=
        match assigned_to with
        | some a =>
          [{ history_id := db.nextHistoryId + 1, ticket_id := ticket_id
             field_changed := "assigned_to", old_value := none
             new_value := some a, changed_by := changed_by, changed_at := now }]
        | none => []
      ({ db with
          tickets := db.tickets.map upd
          history := db.history ++ statusRow :: assignedRows
          nextHistoryId := db.nextHistoryId + 1 + assignedRows.length }, true)

/-- `Ticket.add_tag`: `INSERT OR IGNORE INTO ticket_tags`.  The table
has no UNIQUE constraint on `(ticket_id, tag_name)`, so the only
constraint in play is the foreign key on `ticket_id` — which `OR
IGNORE` does not cover, so a missing ticket raises (embedded as
`none`).  When the ticket exists the row is always inserted and
`rowcount > 0` yields `true`. -/
def add_tag (db : DB) (ticket_id : Nat) (tag_name : String) (now : Nat) :
    Option (DB × Bool) :=
  if db.tickets.any (fun t => t.ticket_id == ticket_id) then
    some
      ({ db with
          tags := db.tags ++
            [{ tag_id := db.nextTagId, ticket_id := ticket_id
               tag_name := normTag tag_name, created_at := now }]
          nextTagId := db.nextTagId + 1 }, true)
  else none

/-- `Ticket.remove_tag`: delete every row of the ticket carrying the
normalised name; `rowcount > 0` reports whether anything was deleted. -/
def remove_tag (db : DB) (ticket_id : Nat) (tag_name : String) : DB × Bool :=
  let nm := normTag tag_name
  let hit : TagRow → Bool := fun g => g.ticket_id == ticket_id && g.tag_name == nm
  ({ db with tags := db.tags.filter (fun g => !(hit g)) },
   decide (0 < (db.tags.filter hit).length))

/-- `Ticket.get_history`: the ticket's history rows, newest first. -/
def get_history (db : DB) (ticket_id : Nat) : List HistoryRow :=
  sortByChangedDesc (db.history.filter (fun h => h.ticket_id == ticket_id))

/-- `Ticket.get_statistics` (the fields the claims are about): total
count in the window, `AVG(rating)` over non-NULL ratings in the window
rounded to two decimals with 0 for an empty set, and the `GROUP BY
rating ORDER BY rating` histogram. -/
def get_statistics (db : DB) (date_from date_to : Option Nat) : Stats :=
  let win := db.tickets.filter (inWindow date_from date_to)
  let rs := ratedRatings db date_from date_to
  { total_tickets := win.length
    average_rating :=
      if rs.isEmpty then 0 else roundTo2 (((rs.sum : ℤ) : ℚ) / (rs.length : ℚ))
    rating_distribution := (dedupSorted (sortAsc rs)).map (fun r => (r, rs.count r)) }

/-- `Ticket.get_count`: `SELECT COUNT(*) FROM tickets` under the
`status` / `type` / `search` predicates only. -/
def get_count (db : DB) (f : Filters) : Nat :=
  (db.tickets.filter (countMatches f)).length

end Ticket

/-- `database.cleanup_old_data`: delete Resolved tickets whose
`resolved_at` is before the cutoff (a NULL `resolved_at` never
compares), then drop history and tag rows whose ticket is gone.  The
`customers` table is untouched. -/
def cleanup_old_data (db : DB) (cutoff : Nat) : DB :=
  let tickets' := db.tickets.filter
    (fun t => !(t.status == "Resolved" &&
      (match t.resolved_at with | some r => decide (r < cutoff) | none => false)))
  { db with
      tickets := tickets'
      history := db.history.filter
        (fun h => tickets'.any (fun t => t.ticket_id == h.ticket_id))
      tags := db.tags.filter
        (fun g => tickets'.any (fun t => t.ticket_id == g.ticket_id)) }

/-! ### Operation traces (reachable store states) -/

/-- One core operation applied to the store, with its wall-clock
timestamp where the source reads `CURRENT_TIMESTAMP`. -/
inductive Op where
  | create (now : Nat) (name email product : String) (rating : Option Int)
      (ticket_type message priority : String)
  | updateStatus (now : Nat) (ticket_id : Nat) (status : String)
      (assigned_to : Option String) (resolution_notes : Option String)
      (changed_by : String)
  | addTag (ticket_id : Nat) (tag_name : String) (now : Nat)
  | removeTag (ticket_id : Nat) (tag_name : String)
  | cleanup (cutoff : Nat)
deriving Repr, DecidableEq

/-- Apply one operation; a raising operation (CHECK or foreign-key
violation) rolls back, leaving the store unchanged. -/
def applyOp (db : DB) : Op → DB
  | .create now name email product rating ticket_type message priority =>
    match Ticket.create db now name email product rating ticket_type message priority with
    | some (db', _) => db'
    | none => db
  | .updateStatus now id status assigned_to resolution_notes changed_by =>
    (Ticket.update_status db now id status assigned_to resolution_notes changed_by).1
  | .addTag id tag now =>
    match Ticket.add_tag db id tag now with
    | some (db', _) => db'
    | none => db
  | .removeTag id tag => (Ticket.remove_tag db id tag).1
  | .cleanup cutoff => cleanup_old_data db cutoff

/-- Apply a trace of operations in order. -/
def applyOps (ops : List Op) (db : DB) : DB := ops.foldl applyOp db

/-! ### Concrete stores and traces used to instantiate the claims -/

/-- Store holding one freshly created Pending ticket (id 1). -/
def dbOne : DB :=
  applyOps [.create 0 "Alice" "a@b.com" "Widget" (some 5) "feedback" "hi" "Medium"] emptyDB

/-- Trace that resolves ticket 1 and then moves it back to Pending. -/
def unresolveOps : List Op :=
  [ .create 0 "Alice" "a@b.com" "Widget" (some 5) "feedback" "hi" "Medium"
  , .updateStatus 1 1 "Resolved" none none "admin"
  , .updateStatus 2 1 "Pending" none none "admin" ]

/-- Trace that creates ticket 1 and resolves it. -/
def resolveOps : List Op :=
  [ .create 0 "Alice" "a@b.com" "Widget" (some 5) "feedback" "hi" "Medium"
  , .updateStatus 1 1 "Resolved" none none "admin" ]

/-- The ticket row held by `dbOne`. -/
def pendingTicketRow : TicketRow :=
  { ticket_id := 1, name := "Alice", email := "a@b.com", product := "Widget"
    rating := some 5, type := "feedback", message := "hi", status := "Pending"
    priority := "Medium", assigned_to := none, resolution_notes := none
    created_at := 0, updated_at := 0, resolved_at := none }

/-- The ticket row reached by `resolveOps` (status Resolved,
`resolved_at` stamped at time 1). -/
def resolvedTicketRow : TicketRow :=
  { ticket_id := 1, name := "Alice", email := "a@b.com", product := "Widget"
    rating := some 5, type := "feedback", message := "hi", status := "Resolved"
    priority := "Medium", assigned_to := none, resolution_notes := none
    created_at := 0, updated_at := 1, resolved_at := some 1 }

/-- Store holding one plain bug ticket (id 1). -/
def dbBase : DB :=
  applyOps [.create 0 "A" "a@b.com" "W" none "bug" "m" "Medium"] emptyDB

/-- Store with ticket 1 carrying one `urgent` tag. -/
def dbTagOnce : DB := applyOps [.addTag 1 "Urgent" 1] dbBase

/-- Store after `add_tag(1, "Urgent")` was called twice. -/
def dbTagTwice : DB := applyOps [.addTag 1 "Urgent" 2] dbTagOnce

/-- Store with two tickets of different priorities. -/
def dbPrio : DB :=
  applyOps [ .create 0 "A" "a@b.com" "W" none "bug" "m" "High"
           , .create 1 "B" "b@b.com" "W" none "bug" "m" "Low" ] emptyDB

/-- Filter selecting only High-priority tickets. -/
def fPriority : Filters := { noFilters with priority := some "High" }

/-- Filter selecting only Pending tickets. -/
def fPending : Filters := { noFilters with status := some "Pending" }

/-- Store whose customer record carries a phone and a company. -/
def dbCust : DB :=
  { emptyDB with
      customers :=
        [{ customer_id := 1, name := "Old", email := "a@b.com"
           phone := some "555-1234", company := some "Acme"
           total_tickets := 3, created_at := 0, last_interaction := some 0 }]
      nextCustomerId := 2 }

/-- Store with ticket 1 already assigned to `alice`. -/
def dbAssigned : DB :=
  applyOps [ .create 0 "A" "a@b.com" "W" none "bug" "m" "Medium"
           , .updateStatus 1 1 "In Review" (some "alice") none "admin" ] emptyDB

/-- Store with five tickets rated 1, 3, 4, 5, 5. -/
def dbStats : DB := applyOps
  [ .create 0 "A" "a@b.com" "W" (some 1) "feedback" "m" "Medium"
  , .create 1 "B" "b@b.com" "W" (some 3) "feedback" "m" "Medium"
  , .create 2 "C" "c@b.com" "W" (some 4) "feedback" "m" "Medium"
  , .create 3 "D" "d@b.com" "W" (some 5) "feedback" "m" "Medium"
  , .create 4 "E" "e@b.com" "W" (some 5) "feedback" "m" "Medium" ] emptyDB

/-- Store where ticket 1 received the comma-carrying tag `a,b`. -/
def dbComma : DB :=
  applyOps [ .create 0 "A" "a@b.com" "W" none "bug" "m" "Medium"
           , .addTag 1 "a,b" 1 ] emptyDB

/-- Trace with two creations for the same email at times 3 and 8. -/
def twoCreateOps : List Op :=
  [ .create 3 "Alice" "a@b.com" "W" none "bug" "m" "Medium"
  , .create 8 "Alice" "a@b.com" "W" none "praise" "m" "Low" ]

/-! ### Spec-side quantities for the customer rollup (claim C8) -/

/-- The creation time of `op` when it is a CHECK-passing `create` for
email `e`, and `none` otherwise. -/
def createTimeFor (e : String) : Op → Option Nat
  | .create now _ email _ rating ticket_type _ priority =>
    if email == e && (ratingOk rating && validTypes.contains ticket_type
        && validPriorities.contains priority) then some now else none
  | _ => none

/-- How many tickets a trace successfully creates for email `e`. -/
def createdCount (e : String) (ops : List Op) : Nat :=
  (ops.filterMap (createTimeFor e)).length

/-- The time of the most recent successful creation for email `e`. -/
def lastCreateTime (e : String) : List Op → Option Nat
  | [] => none
  | op :: rest =>
    match lastCreateTime e rest with
    | some t => some t
    | none => createTimeFor e op

/-- The customer row's `total_tickets` for email `e` (0 when absent). -/
def totalOf (db : DB) (e : String) : Int :=
  ((db.customers.find? (fun c => c.email == e)).map (fun c => c.total_tickets)).getD 0

/-- The customer row's `last_interaction` for email `e`. -/
def lastOf (db : DB) (e : String) : Option Nat :=
  (db.customers.find? (fun c => c.email == e)).bind (fun c => c.last_interaction)

/-- Whether a customer row for email `e` exists. -/
def hasCust (db : DB) (e : String) : Bool :=
  (db.customers.find? (fun c => c.email == e)).isSome

/-! ### Spec-side quantities for the statistics engine (claim C9) -/

/-- Sum of the ratings of the rated tickets inside the window, read off
the ticket list directly. -/
def windowRatingSum (db : DB) (date_from date_to : Option Nat) : Int :=
  (db.tickets.map (fun t =>
    if t.rating.isSome && inWindow date_from date_to t then t.rating.getD 0 else 0)).sum

/-- Number of rated tickets inside the window. -/
def windowRatedCount (db : DB) (date_from date_to : Option Nat) : Nat :=
  db.tickets.countP (fun t => t.rating.isSome && inWindow date_from date_to t)

/-! ### Invariant predicates -/

/-- The direction of the `resolved_at` invariant that the code does
maintain: a Resolved ticket has a non-null `resolved_at`. -/
def resolvedInv (db : DB) : Prop :=
  ∀ t ∈ db.tickets, t.status = "Resolved" → t.resolved_at ≠ none

/-- The invariant claimed by the spec: `resolved_at` non-null iff
status is Resolved. -/
def resolvedIffInv (db : DB) : Prop :=
  ∀ t ∈ db.tickets, (t.resolved_at ≠ none ↔ t.status = "Resolved")

/-- Every ticket id referenced anywhere lies below the autoincrement
counter, so a fresh ticket id has no rows of any kind yet. -/
def idBound (db : DB) : Prop :=
  (∀ t ∈ db.tickets, t.ticket_id < db.nextTicketId) ∧
  (∀ h ∈ db.history, h.ticket_id < db.nextTicketId) ∧
  (∀ g ∈ db.tags, g.ticket_id < db.nextTicketId)

/-! ## Helper lemmas -/

theorem find_append_none {α : Type} {p : α → Bool} {l₁ : List α} (l₂ : List α)
    (h : l₁.find? p = none) : (l₁ ++ l₂).find? p = l₂.find? p := by
  induction l₁ with
  | nil => rfl
  | cons a l ih =>
    cases hp : p a with
    | true => simp [List.find?_cons, hp] at h
    | false =>
      simp only [List.find?_cons, hp] at h
      simpa only [List.cons_append, List.find?_cons, hp] using ih h

theorem find_append_some {α : Type} {p : α → Bool} {l₁ : List α} {x : α} (l₂ : List α)
    (h : l₁.find? p = some x) : (l₁ ++ l₂).find? p = some x := by
  induction l₁ with
  | nil => simp [List.find?] at h
  | cons a l ih =>
    cases hp : p a with
    | true =>
      simp only [List.find?_cons, hp] at h
      simp only [List.cons_append, List.find?_cons, hp]
      exact h
    | false =>
      simp only [List.find?_cons, hp] at h
      simpa only [List.cons_append, List.find?_cons, hp] using ih h

theorem find_filter_of_imp {α : Type} {p q : α → Bool} (l : List α)
    (himp : ∀ x, p x = true → q x = true) :
    (l.filter q).find? p = l.find? p := by
  induction l with
  | nil => rfl
  | cons a l ih =>
    cases hq : q a with
    | true =>
      simp only [List.filter_cons, hq, if_pos, List.find?_cons]
      cases hp : p a <;> simp [ih]
    | false =>
      have hp : p a = false := by
        cases hpa : p a with
        | true => rw [himp a hpa] at hq; cases hq
        | false => rfl
      simp only [List.filter_cons, hq, List.find?_cons, hp]
      simpa [List.find?_cons, hp] using ih

theorem length_insertByCreatedDesc (t : TicketRow) (l : List TicketRow) :
    (insertByCreatedDesc t l).length = l.length + 1 := by
  induction l with
  | nil => rfl
  | cons u us ih =>
    by_cases h : u.created_at ≤ t.created_at <;>
      simp [insertByCreatedDesc, h, ih]

theorem length_sortByCreatedDesc (l : List TicketRow) :
    (sortByCreatedDesc l).length = l.length := by
  induction l with
  | nil => rfl
  | cons t ts ih =>
    show (insertByCreatedDesc t (sortByCreatedDesc ts)).length = ts.length + 1
    rw [length_insertByCreatedDesc, ih]

theorem dedupByIdAux_eq_self {l : List TicketRow} :
    ∀ seen : List Nat, (∀ t ∈ l, t.ticket_id ∉ seen) →
    (l.map (fun t => t.ticket_id)).Nodup → dedupByIdAux seen l = l := by
  induction l with
  | nil => intro seen _ _; rfl
  | cons t rest ih =>
    intro seen hseen hnodup
    have ht : t.ticket_id ∉ seen := hseen t (List.mem_cons_self t rest)
    rw [List.map_cons, List.nodup_cons] at hnodup
    obtain ⟨hhead, htail⟩ := hnodup
    have hrest : ∀ u ∈ rest, u.ticket_id ∉ t.ticket_id :: seen := by
      intro u hu hmem
      rcases List.mem_cons.mp hmem with h | h
      · exact hhead (h ▸ List.mem_map_of_mem (fun t => t.ticket_id) hu)
      · exact hseen u (List.mem_cons_of_mem _ hu) h
    simp only [dedupByIdAux, if_neg ht]
    rw [ih (t.ticket_id :: seen) hrest htail]

theorem dedupById_eq_self {l : List TicketRow}
    (h : (l.map (fun t => t.ticket_id)).Nodup) : dedupById l = l :=
  dedupByIdAux_eq_self [] (by simp) h

theorem splitC_ne_nil (l : List Char) : splitC l ≠ [] := by
  induction l with
  | nil => simp [splitC]
  | cons c rest ih =>
    by_cases hc : c = ','
    · simp [splitC, hc]
    · simp only [splitC, if_neg hc]
      cases hs : splitC rest <;> simp

theorem splitC_cons (c : Char) (l : List Char) :
    splitC (c :: l) =
      if c = ',' then [] :: splitC l
      else
        match splitC l with
        | [] => [[c]]
        | h :: t => (c :: h) :: t := rfl

theorem splitC_append_comma (a b : List Char) :
    splitC (a ++ ',' :: b) = splitC a ++ splitC b := by
  induction a with
  | nil => simp [splitC]
  | cons c a ih =>
    by_cases hc : c = ','
    · subst hc
      simp [splitC, ih]
    · obtain ⟨hh, tt, hsplit⟩ := List.exists_cons_of_ne_nil (splitC_ne_nil a)
      have key : splitC (a ++ ',' :: b) = hh :: (tt ++ splitC b) := by
        rw [ih, hsplit, List.cons_append]
      rw [List.cons_append, splitC_cons, if_neg hc, key, splitC_cons, if_neg hc, hsplit]
      rfl

theorem splitC_of_commaFree {l : List Char} (h : ∀ c ∈ l, c ≠ ',') :
    splitC l = [l] := by
  induction l with
  | nil => rfl
  | cons c rest ih =>
    have hc : c ≠ ',' := h c (List.mem_cons_self c rest)
    have hrest := ih (fun x hx => h x (List.mem_cons_of_mem _ hx))
    simp [splitC, if_neg hc, hrest]

theorem splitC_joinC {ps : List (List Char)} (h : ps ≠ []) :
    splitC (joinC ps) = ps.flatMap splitC := by
  induction ps with
  | nil => cases h rfl
  | cons x xs ih =>
    cases xs with
    | nil => simp [joinC]
    | cons y ys =>
      have : joinC (x :: y :: ys) = x ++ ',' :: joinC (y :: ys) := rfl
      rw [this, splitC_append_comma, ih (by simp)]
      rfl

theorem toList_asString (l : List Char) : (List.asString l).toList = l := rfl

theorem asString_toList (s : String) : List.asString s.toList = s := rfl

theorem asString_eq_empty_iff {l : List Char} : List.asString l = "" ↔ l = [] := by
  constructor
  · intro h
    have := congrArg String.toList h
    simpa [toList_asString] using this
  · intro h; subst h; rfl

theorem mem_tagsField_of_commaFree {nm : String} {names : List String}
    (hmem : nm ∈ names) (hne : nm ≠ "") (hcf : ∀ c ∈ nm.toList, c ≠ ',') :
    nm ∈ tagsField names := by
  cases names with
  | nil => cases hmem
  | cons n ns =>
    have key : splitC (joinC ((n :: ns).map String.toList))
        = ((n :: ns).map String.toList).flatMap splitC := splitC_joinC (by simp)
    have hmemFlat : nm.toList ∈ ((n :: ns).map String.toList).flatMap splitC := by
      refine List.mem_flatMap.mpr ⟨nm.toList, List.mem_map_of_mem String.toList hmem, ?_⟩
      rw [splitC_of_commaFree hcf]
      exact List.mem_singleton.mpr rfl
    by_cases hs : groupConcat (n :: ns) = ""
    · exfalso
      have hjoin : joinC ((n :: ns).map String.toList) = [] := by
        rw [groupConcat] at hs
        exact asString_eq_empty_iff.mp hs
      rw [hjoin] at key
      rw [← key] at hmemFlat
      have hnil : nm.toList = [] := by
        simpa [splitC] using hmemFlat
      apply hne
      have h2 := congrArg List.asString hnil
      rw [asString_toList] at h2
      exact h2
    · have htf : tagsField (n :: ns) = pySplitComma (groupConcat (n :: ns)) := by
        simp [tagsField, hs]
      rw [htf]
      rw [pySplitComma, show (groupConcat (n :: ns)).toList
        = joinC ((n :: ns).map String.toList) from toList_asString _, key]
      have hmm := List.mem_map_of_mem List.asString hmemFlat
      rw [asString_toList] at hmm
      exact hmm

/-! ### Branch equations for the repository operations -/

theorem find_cons_pos {α : Type} {p : α → Bool} {a : α} (l : List α) (h : p a = true) :
    (a :: l).find? p = some a := by
  simp [List.find?_cons, h]

theorem find_cons_neg {α : Type} {p : α → Bool} {a : α} (l : List α) (h : p a = false) :
    (a :: l).find? p = l.find? p := by
  simp [List.find?_cons, h]

theorem create_valid (db : DB) (now : Nat) (name email product : String)
    (rating : Option Int) (ticket_type message priority : String)
    (hok : (ratingOk rating && validTypes.contains ticket_type
      && validPriorities.contains priority) = true) :
    Ticket.create db now name email product rating ticket_type message priority =
      some
        ({ tickets := db.tickets ++
             [newTicketRow db now name email product rating ticket_type message priority]
           history := db.history ++ [createdHistRow db now]
           tags := db.tags
           customers := db.customers.filter (fun c => !(c.email == email)) ++
             [newCustomerRow db now name email]
           nextTicketId := db.nextTicketId + 1
           nextHistoryId := db.nextHistoryId + 1
           nextTagId := db.nextTagId
           nextCustomerId := db.nextCustomerId + 1 }, db.nextTicketId) := by
  rw [Ticket.create, if_pos hok]
  rfl

theorem create_invalid (db : DB) (now : Nat) (name email product : String)
    (rating : Option Int) (ticket_type message priority : String)
    (hok : (ratingOk rating && validTypes.contains ticket_type
      && validPriorities.contains priority) = false) :
    Ticket.create db now name email product rating ticket_type message priority = none := by
  rw [Ticket.create, if_neg (by rw [hok]; exact Bool.false_ne_true)]

theorem update_status_invalid (db : DB) (now id : Nat) (st : String)
    (a n : Option String) (cb : String)
    (hv : validStatuses.contains st = false) :
    Ticket.update_status db now id st a n cb = (db, false) := by
  rw [Ticket.update_status.eq_def, hv]
  rfl

theorem update_status_notfound (db : DB) (now id : Nat) (st : String)
    (a n : Option String) (cb : String)
    (hv : validStatuses.contains st = true)
    (hf : db.tickets.find? (fun t => t.ticket_id == id) = none) :
    Ticket.update_status db now id st a n cb = (db, false) := by
  rw [Ticket.update_status.eq_def, hv, if_neg (by decide), hf]

theorem update_status_found (db : DB) (now id : Nat) (st : String)
    (a n : Option String) (cb : String) (cur : TicketRow)
    (hv : validStatuses.contains st = true)
    (hf : db.tickets.find? (fun t => t.ticket_id == id) = some cur) :
    Ticket.update_status db now id st a n cb =
      ({ db with
          tickets := db.tickets.map (updTicket id st a n now)
          history := db.history ++
            statusHistRow db id cur.status st cb now :: assignedHistRows db id a cb now
          nextHistoryId := db.nextHistoryId + 1 +
            (assignedHistRows db id a cb now).length }, true) := by
  rw [Ticket.update_status.eq_def, hv, if_neg (by decide), hf]
  cases a <;> rfl

theorem add_tag_found (db : DB) (id : Nat) (tag_name : String) (now : Nat)
    (h : db.tickets.any (fun t => t.ticket_id == id) = true) :
    Ticket.add_tag db id tag_name now =
      some
        ({ db with
            tags := db.tags ++
              [{ tag_id := db.nextTagId, ticket_id := id
                 tag_name := normTag tag_name, created_at := now }]
            nextTagId := db.nextTagId + 1 }, true) := by
  rw [Ticket.add_tag, if_pos h]

theorem add_tag_notfound (db : DB) (id : Nat) (tag_name : String) (now : Nat)
    (h : db.tickets.any (fun t => t.ticket_id == id) = false) :
    Ticket.add_tag db id tag_name now = none := by
  rw [Ticket.add_tag, if_neg (by simp [h])]

/-! ### Preservation of the `resolvedInv` invariant -/

theorem resolvedInv_applyOp {db : DB} (h : resolvedInv db) (op : Op) :
    resolvedInv (applyOp db op) := by
  cases op with
  | create now name email product rating ticket_type message priority =>
    cases hok : (ratingOk rating && validTypes.contains ticket_type
        && validPriorities.contains priority) with
    | false =>
      simp only [applyOp, create_invalid db now name email product rating
        ticket_type message priority hok]
      exact h
    | true =>
      simp only [applyOp, create_valid db now name email product rating
        ticket_type message priority hok]
      intro t ht hst
      rcases List.mem_append.mp ht with hmem | hmem
      · exact h t hmem hst
      · rcases List.mem_singleton.mp hmem with rfl
        simp [newTicketRow] at hst
  | updateStatus now id st a n cb =>
    cases hv : validStatuses.contains st with
    | false =>
      simp only [applyOp, update_status_invalid db now id st a n cb hv]
      exact h
    | true =>
      cases hf : db.tickets.find? (fun t => t.ticket_id == id) with
      | none =>
        simp only [applyOp, update_status_notfound db now id st a n cb hv hf]
        exact h
      | some cur =>
        simp only [applyOp, update_status_found db now id st a n cb cur hv hf]
        intro t' ht' hst
        obtain ⟨t, htm, rfl⟩ := List.mem_map.mp ht'
        unfold updTicket at hst ⊢
        by_cases hid : (t.ticket_id == id) = true
        · rw [if_pos hid] at hst ⊢
          have hst2 : st = "Resolved" := hst
          simp [hst2]
        · rw [if_neg hid] at hst ⊢
          exact h t htm hst
  | addTag id tag now =>
    cases hex : db.tickets.any (fun t => t.ticket_id == id) with
    | false =>
      simp only [applyOp, add_tag_notfound db id tag now hex]
      exact h
    | true =>
      simp only [applyOp, add_tag_found db id tag now hex]
      exact h
  | removeTag id tag => exact h
  | cleanup cutoff =>
    intro t ht hst
    exact h t (List.mem_filter.mp ht).1 hst

theorem resolvedInv_applyOps (ops : List Op) {db : DB} (h : resolvedInv db) :
    resolvedInv (applyOps ops db) := by
  induction ops generalizing db with
  | nil => exact h
  | cons op rest ih => exact ih (resolvedInv_applyOp h op)

/-! ### Preservation of the `idBound` invariant -/

theorem idBound_applyOp {db : DB} (h : idBound db) (op : Op) :
    idBound (applyOp db op) := by
  obtain ⟨hT, hH, hG⟩ := h
  cases op with
  | create now name email product rating ticket_type message priority =>
    cases hok : (ratingOk rating && validTypes.contains ticket_type
        && validPriorities.contains priority) with
    | false =>
      simp only [applyOp, create_invalid db now name email product rating
        ticket_type message priority hok]
      exact ⟨hT, hH, hG⟩
    | true =>
      simp only [applyOp, create_valid db now name email product rating
        ticket_type message priority hok]
      refine ⟨?_, ?_, ?_⟩
      · intro t ht
        rcases List.mem_append.mp ht with hmem | hmem
        · exact Nat.lt_succ_of_lt (hT t hmem)
        · rcases List.mem_singleton.mp hmem with rfl
          exact Nat.lt_succ_self _
      · intro x hx
        rcases List.mem_append.mp hx with hmem | hmem
        · exact Nat.lt_succ_of_lt (hH x hmem)
        · rcases List.mem_singleton.mp hmem with rfl
          exact Nat.lt_succ_self _
      · intro g hg
        exact Nat.lt_succ_of_lt (hG g hg)
  | updateStatus now id st a n cb =>
    cases hv : validStatuses.contains st with
    | false =>
      simp only [applyOp, update_status_invalid db now id st a n cb hv]
      exact ⟨hT, hH, hG⟩
    | true =>
      cases hf : db.tickets.find? (fun t => t.ticket_id == id) with
      | none =>
        simp only [applyOp, update_status_notfound db now id st a n cb hv hf]
        exact ⟨hT, hH, hG⟩
      | some cur =>
        have hcurmem : cur ∈ db.tickets := List.mem_of_find?_eq_some hf
        have hcurid : cur.ticket_id = id := by
          simpa using List.find?_some hf
        have hidlt : id < db.nextTicketId := hcurid ▸ hT cur hcurmem
        simp only [applyOp, update_status_found db now id st a n cb cur hv hf]
        refine ⟨?_, ?_, ?_⟩
        · intro t' ht'
          obtain ⟨t, htm, rfl⟩ := List.mem_map.mp ht'
          unfold updTicket
          by_cases hid : (t.ticket_id == id) = true
          · rw [if_pos hid]
            exact hT t htm
          · rw [if_neg hid]
            exact hT t htm
        · intro x hx
          rcases List.mem_append.mp hx with hmem | hmem
          · exact hH x hmem
          · rcases List.mem_cons.mp hmem with rfl | hmem2
            · exact hidlt
            · cases a with
              | some v =>
                simp only [assignedHistRows] at hmem2
                rcases List.mem_singleton.mp hmem2 with rfl
                exact hidlt
              | none =>
                simp only [assignedHistRows] at hmem2
                cases hmem2
        · exact hG
  | addTag id tag now =>
    cases hex : db.tickets.any (fun t => t.ticket_id == id) with
    | false =>
      simp only [applyOp, add_tag_notfound db id tag now hex]
      exact ⟨hT, hH, hG⟩
    | true =>
      obtain ⟨t0, ht0, hid0⟩ := List.any_eq_true.mp hex
      have hidlt : id < db.nextTicketId :=
        (by simpa using hid0 : t0.ticket_id = id) ▸ hT t0 ht0
      simp only [applyOp, add_tag_found db id tag now hex]
      refine ⟨hT, hH, ?_⟩
      intro g hg
      rcases List.mem_append.mp hg with hmem | hmem
      · exact hG g hmem
      · rcases List.mem_singleton.mp hmem with rfl
        exact hidlt
  | removeTag id tag =>
    refine ⟨hT, hH, ?_⟩
    intro g hg
    exact hG g (List.mem_filter.mp hg).1
  | cleanup cutoff =>
    refine ⟨?_, ?_, ?_⟩
    · intro t ht
      exact hT t (List.mem_filter.mp ht).1
    · intro x hx
      exact hH x (List.mem_filter.mp hx).1
    · intro g hg
      exact hG g (List.mem_filter.mp hg).1

theorem idBound_applyOps (ops : List Op) {db : DB} (h : idBound db) :
    idBound (applyOps ops db) := by
  induction ops generalizing db with
  | nil => exact h
  | cons op rest ih => exact ih (idBound_applyOp h op)

theorem idBound_reachable (ops : List Op) : idBound (applyOps ops emptyDB) :=
  idBound_applyOps ops (by refine ⟨?_, ?_, ?_⟩ <;> intro x hx <;> cases hx)

/-! ### Customer-rollup lemmas (claim C8) -/

theorem proj_of_customers_eq {db' db : DB} (h : db'.customers = db.customers) (e : String) :
    totalOf db' e = totalOf db e ∧ lastOf db' e = lastOf db e ∧ hasCust db' e = hasCust db e := by
  unfold totalOf lastOf hasCust
  rw [h]
  exact ⟨rfl, rfl, rfl⟩

theorem customers_applyOp_of_some (db : DB) {op : Op} {e : String} {t0 : Nat}
    (hc : createTimeFor e op = some t0) :
    totalOf (applyOp db op) e = totalOf db e + 1
      ∧ lastOf (applyOp db op) e = some t0
      ∧ hasCust (applyOp db op) e = true := by
  cases op with
  | updateStatus now id st a n cb => simp [createTimeFor] at hc
  | addTag id tag now => simp [createTimeFor] at hc
  | removeTag id tag => simp [createTimeFor] at hc
  | cleanup cutoff => simp [createTimeFor] at hc
  | create now name email product rating ticket_type message priority =>
    rw [createTimeFor] at hc
    cases hcond : (email == e && (ratingOk rating && validTypes.contains ticket_type
        && validPriorities.contains priority)) with
    | false => rw [hcond] at hc; cases hc
    | true =>
      rw [hcond, if_pos rfl] at hc
      have he : (email == e) = true := by
        cases hx : (email == e) with
        | true => rfl
        | false => rw [hx, Bool.false_and] at hcond; cases hcond
      have hguard : (ratingOk rating && validTypes.contains ticket_type
          && validPriorities.contains priority) = true := by
        rw [he, Bool.true_and] at hcond
        exact hcond
      have hee : email = e := by simpa using he
      subst hee
      injection hc with ht0
      subst ht0
      simp only [applyOp, create_valid db now name email product rating
        ticket_type message priority hguard]
      have hnone : (db.customers.filter (fun c => !(c.email == email))).find?
          (fun c => c.email == email) = none := by
        rw [List.find?_eq_none]
        intro x hx hpx
        have hq := (List.mem_filter.mp hx).2
        rw [hpx] at hq
        cases hq
      have hfind : ((db.customers.filter (fun c => !(c.email == email))) ++
          [newCustomerRow db now name email]).find? (fun c => c.email == email)
          = some (newCustomerRow db now name email) := by
        rw [find_append_none _ hnone]
        exact find_cons_pos _ (by simp [newCustomerRow])
      unfold totalOf lastOf hasCust
      dsimp only
      rw [hfind]
      exact ⟨rfl, rfl, rfl⟩

theorem customers_applyOp_of_none (db : DB) {op : Op} {e : String}
    (hc : createTimeFor e op = none) :
    totalOf (applyOp db op) e = totalOf db e
      ∧ lastOf (applyOp db op) e = lastOf db e
      ∧ hasCust (applyOp db op) e = hasCust db e := by
  cases op with
  | updateStatus now id st a n cb =>
    have hcust : (applyOp db (.updateStatus now id st a n cb)).customers = db.customers := by
      cases hv : validStatuses.contains st with
      | false => simp [applyOp, update_status_invalid db now id st a n cb hv]
      | true =>
        cases hf : db.tickets.find? (fun t => t.ticket_id == id) with
        | none => simp [applyOp, update_status_notfound db now id st a n cb hv hf]
        | some cur => simp [applyOp, update_status_found db now id st a n cb cur hv hf]
    exact proj_of_customers_eq hcust e
  | addTag id tag now =>
    have hcust : (applyOp db (.addTag id tag now)).customers = db.customers := by
      cases hex : db.tickets.any (fun t => t.ticket_id == id) with
      | false => simp [applyOp, add_tag_notfound db id tag now hex]
      | true => simp [applyOp, add_tag_found db id tag now hex]
    exact proj_of_customers_eq hcust e
  | removeTag id tag => exact proj_of_customers_eq rfl e
  | cleanup cutoff => exact proj_of_customers_eq rfl e
  | create now name email product rating ticket_type message priority =>
    rw [createTimeFor] at hc
    cases hguard : (ratingOk rating && validTypes.contains ticket_type
        && validPriorities.contains priority) with
    | false =>
      have happ : applyOp db (.create now name email product rating
          ticket_type message priority) = db := by
        simp [applyOp, create_invalid db now name email product rating
          ticket_type message priority hguard]
      rw [happ]
      exact ⟨rfl, rfl, rfl⟩
    | true =>
      rw [hguard, Bool.and_true] at hc
      cases he : (email == e) with
      | true => rw [he, if_pos rfl] at hc; cases hc
      | false =>
        simp only [applyOp, create_valid db now name email product rating
          ticket_type message priority hguard]
        have hne : email ≠ e := by
          intro hcontra
          rw [hcontra] at he
          simp at he
        have himp : ∀ x : CustomerRow, (x.email == e) = true →
            (!(x.email == email)) = true := by
          intro x hx
          have hxe : x.email = e := by simpa using hx
          have hfalse : (x.email == email) = false := by
            rw [hxe]
            exact beq_eq_false_iff_ne.mpr (fun hemail => hne hemail.symm)
          rw [hfalse]
          rfl
        have h1 : ((db.customers.filter (fun c => !(c.email == email))).find?
            (fun c => c.email == e)) = db.customers.find? (fun c => c.email == e) :=
          find_filter_of_imp db.customers himp
        have h2 : ((db.customers.filter (fun c => !(c.email == email))) ++
            [newCustomerRow db now name email]).find? (fun c => c.email == e)
            = db.customers.find? (fun c => c.email == e) := by
          cases hfind : db.customers.find? (fun c => c.email == e) with
          | some x => exact find_append_some _ (h1.trans hfind)
          | none =>
            rw [find_append_none _ (h1.trans hfind)]
            simp [List.find?_cons, newCustomerRow, he]
        unfold totalOf lastOf hasCust
        dsimp only
        rw [h2]
        exact ⟨rfl, rfl, rfl⟩

theorem customer_applyOps (ops : List Op) (db : DB) (e : String) :
    totalOf (applyOps ops db) e = totalOf db e + (createdCount e ops : Int)
      ∧ lastOf (applyOps ops db) e =
          (match lastCreateTime e ops with
           | some t => some t
           | none => lastOf db e)
      ∧ hasCust (applyOps ops db) e
          = (hasCust db e || decide (0 < createdCount e ops)) := by
  induction ops generalizing db with
  | nil => simp [applyOps, createdCount, lastCreateTime]
  | cons op rest ih =>
    have hstep : applyOps (op :: rest) db = applyOps rest (applyOp db op) := rfl
    cases hc : createTimeFor e op with
    | some t0 =>
      obtain ⟨h1, h2, h3⟩ := customers_applyOp_of_some db hc
      obtain ⟨g1, g2, g3⟩ := ih (applyOp db op)
      have hcount : createdCount e (op :: rest) = createdCount e rest + 1 := by
        simp [createdCount, List.filterMap_cons, hc]
      refine ⟨?_, ?_, ?_⟩
      · rw [hstep, g1, h1, hcount]
        push_cast
        ring
      · rw [hstep, g2]
        rw [show lastCreateTime e (op :: rest) =
          (match lastCreateTime e rest with
           | some t => some t
           | none => createTimeFor e op) from rfl, hc]
        cases lastCreateTime e rest with
        | some t => rfl
        | none => rw [h2]
      · rw [hstep, g3, h3, hcount]
        simp
    | none =>
      obtain ⟨h1, h2, h3⟩ := customers_applyOp_of_none db hc
      obtain ⟨g1, g2, g3⟩ := ih (applyOp db op)
      have hcount : createdCount e (op :: rest) = createdCount e rest := by
        simp [createdCount, List.filterMap_cons, hc]
      refine ⟨?_, ?_, ?_⟩
      · rw [hstep, g1, h1, hcount]
      · rw [hstep, g2]
        rw [show lastCreateTime e (op :: rest) =
          (match lastCreateTime e rest with
           | some t => some t
           | none => createTimeFor e op) from rfl, hc]
        cases lastCreateTime e rest with
        | some t => rfl
        | none => rw [h2]
      · rw [hstep, g3, h3, hcount]

/-! ### Filter-equivalence lemmas (claim C3) -/

theorem ticketMatches_restricted {f : Filters}
    (hp : activeStr f.priority = none) (ha : activeStr f.assigned_to = none)
    (hdf : activeNat f.date_from = none) (hdt : activeNat f.date_to = none)
    (hrm : activeInt f.rating_min = none) (hrx : activeInt f.rating_max = none)
    (t : TicketRow) : ticketMatches f t = countMatches f t := by
  unfold ticketMatches countMatches
  rw [hp, ha, hdf, hdt, hrm, hrx]
  cases activeStr f.status <;> cases activeStr f.type <;>
    cases activeStr f.search <;> simp

theorem get_all_nolimit (db : DB) (f : Filters)
    (hd : (db.tickets.map (fun t => t.ticket_id)).Nodup) :
    Ticket.get_all db f none none =
      (sortByCreatedDesc (db.tickets.filter (ticketMatches f))).map
        (Ticket.toListItem db) := by
  have h : Ticket.get_all db f none none =
      (sortByCreatedDesc (dedupById (db.tickets.filter (ticketMatches f)))).map
        (Ticket.toListItem db) := rfl
  rw [h, dedupById_eq_self]
  exact hd.sublist (List.Sublist.map _ (List.filter_sublist _))

/-! ### Statistics lemmas (claim C9) -/

theorem rated_sum_eq (w : TicketRow → Bool) (l : List TicketRow) :
    ((l.filter (fun t => t.rating.isSome && w t)).filterMap (fun t => t.rating)).sum
      = (l.map (fun t => if t.rating.isSome && w t then t.rating.getD 0 else 0)).sum := by
  induction l with
  | nil => rfl
  | cons t l ih =>
    cases hp : (t.rating.isSome && w t) with
    | false =>
      rw [List.filter_cons_of_neg (by simp [hp]), List.map_cons, List.sum_cons, ih]
      have hg : (if (t.rating.isSome && w t) = true then t.rating.getD 0 else 0) = 0 := by
        rw [hp]
        rfl
      rw [hg, Int.zero_add]
    | true =>
      have hsome : t.rating.isSome = true := by
        cases hx : t.rating.isSome with
        | true => rfl
        | false => rw [hx, Bool.false_and] at hp; cases hp
      obtain ⟨r, hr⟩ := Option.isSome_iff_exists.mp hsome
      rw [List.filter_cons_of_pos (by simp [hp]),
        List.filterMap_cons_some (show (fun t : TicketRow => t.rating) t = some r from hr),
        List.sum_cons, List.map_cons, List.sum_cons, ih]
      have hg : (if (t.rating.isSome && w t) = true then t.rating.getD 0 else 0) = r := by
        rw [hp, if_pos rfl, hr]
        rfl
      rw [hg]

theorem rated_length_eq (w : TicketRow → Bool) (l : List TicketRow) :
    ((l.filter (fun t => t.rating.isSome && w t)).filterMap (fun t => t.rating)).length
      = l.countP (fun t => t.rating.isSome && w t) := by
  induction l with
  | nil => rfl
  | cons t l ih =>
    cases hp : (t.rating.isSome && w t) with
    | false =>
      rw [List.filter_cons_of_neg (by simp [hp]), List.countP_cons_of_neg _ _ (by simp [hp])]
      exact ih
    | true =>
      have hsome : t.rating.isSome = true := by
        cases hx : t.rating.isSome with
        | true => rfl
        | false => rw [hx, Bool.false_and] at hp; cases hp
      obtain ⟨r, hr⟩ := Option.isSome_iff_exists.mp hsome
      rw [List.filter_cons_of_pos (by simp [hp]),
        List.filterMap_cons_some (show (fun t : TicketRow => t.rating) t = some r from hr),
        List.length_cons, List.countP_cons_of_pos _ _ (by simp [hp]), ih]


/-! ## The claims -/

/-- Claim C1, counterexample: the claimed iff-invariant (`resolved_at`
non-null iff status is Resolved) fails on the store reached by creating
a ticket, resolving it, and moving it back to Pending — `update_status`
never clears `resolved_at`. -/
theorem claim_C1_cex : ¬ resolvedIffInv (applyOps unresolveOps emptyDB) := by
  unfold resolvedIffInv
  decide

/-- Claim C1 (amended): in every reachable store state, a ticket whose
status is `Resolved` has a non-null `resolved_at`; this direction is
preserved by create and by every `update_status` call.  The converse
direction fails, because a transition from Resolved back to Pending or
In Review leaves `resolved_at` set. -/
theorem claim_C1 (ops : List Op) :
    ∀ t ∈ (applyOps ops emptyDB).tickets, t.status = "Resolved" → t.resolved_at ≠ none :=
  resolvedInv_applyOps ops (by intro t ht; cases ht)

/-- Claim C1, witness: the ticket resolved at time 1 is reachable,
Resolved, and carries a non-null `resolved_at`. -/
theorem claim_C1_witness :
    resolvedTicketRow ∈ (applyOps resolveOps emptyDB).tickets
      ∧ resolvedTicketRow.status = "Resolved"
      ∧ resolvedTicketRow.resolved_at ≠ none :=
  ⟨by decide, by decide, claim_C1 resolveOps resolvedTicketRow (by decide) (by decide)⟩

/-- Claim C2 (code bug): `add_tag` is not idempotent.  The
`ticket_tags` table has no UNIQUE constraint on
`(ticket_id, tag_name)`, so `INSERT OR IGNORE` never ignores: the
second `add_tag(1, "Urgent")` call returns a success outcome and the
ticket ends up with two `urgent` tag rows, and `get_by_id` then lists
`urgent` twice, contradicting the claimed uniqueness per ticket. -/
theorem claim_C2 :
    Ticket.add_tag dbTagOnce 1 "Urgent" 2 = some (dbTagTwice, true)
      ∧ (Ticket.get_by_id dbTagTwice 1).map (fun v => v.tags)
          = some ["urgent", "urgent"] := by
  constructor
  · decide
  · decide

/-- Claim C3, counterexample: `get_count` ignores the priority filter,
so on a store with one High and one Low ticket it reports 2 while
`get_all` under the same filter returns 1 ticket. -/
theorem claim_C3_cex :
    Ticket.get_count dbPrio fPriority ≠ (Ticket.get_all dbPrio fPriority none none).length := by
  decide

/-- Claim C3 (amended): `count(filters)` equals the number of tickets
returned by `list(filters)` with no limit and no offset for filter sets
whose only active keys are status, type and free-text search (on a
store with distinct ticket ids); `get_count` ignores the priority,
assigned_to, date-range and rating-range keys, so equality can fail
when those are active. -/
theorem claim_C3 (db : DB) (f : Filters)
    (hd : (db.tickets.map (fun t => t.ticket_id)).Nodup)
    (hp : activeStr f.priority = none) (ha : activeStr f.assigned_to = none)
    (hdf : activeNat f.date_from = none) (hdt : activeNat f.date_to = none)
    (hrm : activeInt f.rating_min = none) (hrx : activeInt f.rating_max = none) :
    Ticket.get_count db f = (Ticket.get_all db f none none).length := by
  rw [get_all_nolimit db f hd, List.length_map, length_sortByCreatedDesc]
  unfold Ticket.get_count
  have hfc : db.tickets.filter (countMatches f) = db.tickets.filter (ticketMatches f) :=
    List.filter_congr (fun t _ => (ticketMatches_restricted hp ha hdf hdt hrm hrx t).symm)
  rw [hfc]

/-- Claim C3, witness: with only a status filter active, `get_count`
agrees with the length of `get_all`. -/
theorem claim_C3_witness :
    (dbPrio.tickets.map (fun t => t.ticket_id)).Nodup
      ∧ Ticket.get_count dbPrio fPending = (Ticket.get_all dbPrio fPending none none).length :=
  ⟨by decide, claim_C3 dbPrio fPending (by decide) (by decide) (by decide) (by decide)
    (by decide) (by decide) (by decide)⟩

/-- Claim C4 (code bug): the customer upsert is `INSERT OR REPLACE`,
which deletes the conflicting row and writes a fresh one whose
unspecified columns revert to their defaults — a stored phone and
company are wiped to NULL by the next ticket creation for that email,
contradicting the claim that only name, total_tickets and
last_interaction change. -/
theorem claim_C4 :
    ((dbCust.customers.find? (fun c => c.email == "a@b.com")).map
        (fun c => (c.phone, c.company)) = some (some "555-1234", some "Acme"))
    ∧ ((Ticket.create dbCust 7 "Alice" "a@b.com" "W" none "bug" "m" "Medium").map
        (fun p => (p.1.customers.find? (fun c => c.email == "a@b.com")).map
          (fun c => (c.phone, c.company))) = some (some (none, none))) := by
  constructor
  · decide
  · decide

/-- Claim C5, counterexample: `update_status` appends an `assigned_to`
history row whenever the `assigned_to` argument is supplied, even when
the stored value does not change: re-assigning ticket 1 to its current
assignee `alice` still appends a row, refuting the claimed
"if and only if assigned_to changed". -/
theorem claim_C5_cex :
    ((dbAssigned.tickets.find? (fun t => t.ticket_id == 1)).map (fun t => t.assigned_to)
        = some (some "alice"))
    ∧ (((Ticket.update_status dbAssigned 2 1 "Pending" (some "alice") none
          "admin").1.tickets.find? (fun t => t.ticket_id == 1)).map (fun t => t.assigned_to)
        = some (some "alice"))
    ∧ ((Ticket.update_status dbAssigned 2 1 "Pending" (some "alice") none
          "admin").1.history.countP (fun h => h.field_changed == "assigned_to")
        = dbAssigned.history.countP (fun h => h.field_changed == "assigned_to") + 1) := by
  refine ⟨by decide, by decide, by decide⟩

/-- Claim C5 (amended): for every existing ticket and valid target
label, `update_status` appends exactly one `status` history row whose
old_value is the previous status and whose new_value is the new status
(even when they are equal), returns true, and appends one `assigned_to`
history row exactly when the `assigned_to` argument is supplied
(non-null) — regardless of whether the stored value changed. -/
theorem claim_C5 (db : DB) (now id : Nat) (st : String) (a n : Option String)
    (cb : String) (cur : TicketRow)
    (hv : validStatuses.contains st = true)
    (hf : db.tickets.find? (fun t => t.ticket_id == id) = some cur) :
    (Ticket.update_status db now id st a n cb).1.history
        = db.history ++ statusHistRow db id cur.status st cb now ::
            assignedHistRows db id a cb now
      ∧ (Ticket.update_status db now id st a n cb).2 = true
      ∧ (assignedHistRows db id a cb now).length = (if a.isSome then 1 else 0) := by
  rw [update_status_found db now id st a n cb cur hv hf]
  refine ⟨rfl, rfl, ?_⟩
  cases a <;> rfl

/-- Claim C5, witness: updating ticket 1 of `dbOne` to In Review with
an assignee appends the status row and one assigned_to row. -/
theorem claim_C5_witness :
    validStatuses.contains "In Review" = true
      ∧ dbOne.tickets.find? (fun t => t.ticket_id == 1) = some pendingTicketRow
      ∧ (Ticket.update_status dbOne 5 1 "In Review" (some "bob") none "admin").1.history
          = dbOne.history ++ statusHistRow dbOne 1 pendingTicketRow.status "In Review" "admin" 5 ::
              assignedHistRows dbOne 1 (some "bob") "admin" 5 :=
  ⟨by decide, by decide,
    (claim_C5 dbOne 5 1 "In Review" (some "bob") none "admin" pendingTicketRow
      (by decide) (by decide)).1⟩

/-- Claim C6, counterexample: the two failure modes are not distinct
outcomes — an invalid label on an existing ticket and a valid label on
a missing ticket both return exactly `(db, false)`, the same value. -/
theorem claim_C6_cex :
    Ticket.update_status dbOne 5 1 "Closed" none none "admin"
      = Ticket.update_status dbOne 5 99 "Pending" none none "admin" := by
  decide

/-- Claim C6 (amended): if the requested label is not one of Pending /
In Review / Resolved, `update_status` returns false with the store
untouched (the label is checked before any lookup); if the label is
valid but the ticket id does not exist, it also returns false with the
store untouched.  The two failures yield the same outcome value — the
code does not distinguish InvalidStatus from NotFound. -/
theorem claim_C6 (db : DB) (now id : Nat) (st : String) (a n : Option String)
    (cb : String) :
    (validStatuses.contains st = false →
        Ticket.update_status db now id st a n cb = (db, false))
    ∧ (validStatuses.contains st = true →
        db.tickets.find? (fun t => t.ticket_id == id) = none →
        Ticket.update_status db now id st a n cb = (db, false)) :=
  ⟨fun hv => update_status_invalid db now id st a n cb hv,
   fun hv hf => update_status_notfound db now id st a n cb hv hf⟩

/-- Claim C6, witness: updating ticket 1 of `dbOne` to the invalid
label `Closed` returns false and leaves the store unchanged. -/
theorem claim_C6_witness :
    validStatuses.contains "Closed" = false
      ∧ Ticket.update_status dbOne 5 1 "Closed" none none "admin" = (dbOne, false) :=
  ⟨by decide, (claim_C6 dbOne 5 1 "Closed" none none "admin").1 (by decide)⟩

/-- Claim C7: on any reachable store, immediately after a successful
`create` returns `ticket_id`, `get_by_id ticket_id` returns a ticket
with status Pending and null `resolved_at`, and `get_history ticket_id`
holds exactly one entry, whose `field_changed` is `created`. -/
theorem claim_C7 (ops : List Op) (now : Nat) (name email product : String)
    (rating : Option Int) (ticket_type message priority : String) (db' : DB) (id : Nat)
    (hc : Ticket.create (applyOps ops emptyDB) now name email product rating
      ticket_type message priority = some (db', id)) :
    (Ticket.get_by_id db' id).map (fun v => (v.status, v.resolved_at))
        = some ("Pending", none)
    ∧ (Ticket.get_history db' id).map (fun h => h.field_changed) = ["created"] := by
  obtain ⟨hT, hH, hG⟩ := idBound_reachable ops
  cases hok : (ratingOk rating && validTypes.contains ticket_type
      && validPriorities.contains priority) with
  | false =>
    rw [create_invalid (applyOps ops emptyDB) now name email product rating
      ticket_type message priority hok] at hc
    cases hc
  | true =>
    rw [create_valid (applyOps ops emptyDB) now name email product rating
      ticket_type message priority hok] at hc
    simp only [Option.some.injEq, Prod.mk.injEq] at hc
    obtain ⟨hdb', hid⟩ := hc
    subst hdb'
    subst hid
    have hfnone : (applyOps ops emptyDB).tickets.find?
        (fun t => t.ticket_id == (applyOps ops emptyDB).nextTicketId) = none := by
      rw [List.find?_eq_none]
      intro x hx hpx
      exact absurd (by simpa using hpx) (Nat.ne_of_lt (hT x hx))
    have hfilnil : (applyOps ops emptyDB).history.filter
        (fun h => h.ticket_id == (applyOps ops emptyDB).nextTicketId) = [] := by
      rw [List.filter_eq_nil_iff]
      intro x hx hpx
      exact absurd (by simpa using hpx) (Nat.ne_of_lt (hH x hx))
    constructor
    · rw [Ticket.get_by_id.eq_def]
      dsimp only
      rw [find_append_none _ hfnone, find_cons_pos _ (by simp [newTicketRow])]
      rfl
    · rw [Ticket.get_history]
      dsimp only
      rw [List.filter_append, hfilnil, List.nil_append,
        List.filter_cons_of_pos (by simp [createdHistRow])]
      rfl

/-- Claim C7, witness: creating the Alice ticket on the empty store
yields id 1, whose view is Pending with null `resolved_at` and whose
history is the single `created` entry. -/
theorem claim_C7_witness :
    Ticket.create (applyOps [] emptyDB) 0 "Alice" "a@b.com" "Widget" (some 5)
        "feedback" "hi" "Medium" = some (dbOne, 1)
      ∧ ((Ticket.get_by_id dbOne 1).map (fun v => (v.status, v.resolved_at))
            = some ("Pending", none)
          ∧ (Ticket.get_history dbOne 1).map (fun h => h.field_changed) = ["created"]) :=
  ⟨by decide,
    claim_C7 [] 0 "Alice" "a@b.com" "Widget" (some 5) "feedback" "hi" "Medium"
      dbOne 1 (by decide)⟩

/-- Claim C8: starting from the empty store, after any trace of core
operations the customer row for an email has `total_tickets` equal to
the number of tickets ever successfully created for that email (so
sequentially creating N tickets yields N, and no core operation ever
decrements it), `last_interaction` equal to the time of the most recent
creation, and the row exists as soon as one creation happened. -/
theorem claim_C8 (ops : List Op) (e : String) :
    totalOf (applyOps ops emptyDB) e = (createdCount e ops : Int)
      ∧ lastOf (applyOps ops emptyDB) e = lastCreateTime e ops
      ∧ (0 < createdCount e ops → hasCust (applyOps ops emptyDB) e = true) := by
  obtain ⟨h1, h2, h3⟩ := customer_applyOps ops emptyDB e
  refine ⟨?_, ?_, ?_⟩
  · rw [h1]
    show (0 : Int) + (createdCount e ops : Int) = (createdCount e ops : Int)
    rw [Int.zero_add]
  · rw [h2]
    cases lastCreateTime e ops with
    | some t => rfl
    | none => rfl
  · intro hpos
    rw [h3]
    simp [hasCust, emptyDB, hpos]

/-- Claim C8, witness: two creations for the same email at times 3 and
8 yield `total_tickets = 2`, `last_interaction = 8`, and an existing
customer row. -/
theorem claim_C8_witness :
    totalOf (applyOps twoCreateOps emptyDB) "a@b.com" = 2
      ∧ lastOf (applyOps twoCreateOps emptyDB) "a@b.com" = some 8
      ∧ hasCust (applyOps twoCreateOps emptyDB) "a@b.com" = true := by
  obtain ⟨h1, h2, h3⟩ := claim_C8 twoCreateOps "a@b.com"
  refine ⟨?_, ?_, h3 (by decide)⟩
  · rw [h1]
    decide
  · rw [h2]
    decide

/-- Claim C9: `get_statistics` computes the average rating over exactly
the tickets with non-null rating inside the optional creation-date
window, rounded to two decimal places, and reports 0 when no rated
ticket exists; on the store with five tickets rated 1, 3, 4, 5, 5 it
returns `average_rating = 3.6` and the distribution
1 ↦ 1, 3 ↦ 1, 4 ↦ 1, 5 ↦ 2. -/
theorem claim_C9 :
    (∀ (db : DB) (date_from date_to : Option Nat),
      (Ticket.get_statistics db date_from date_to).average_rating =
        if windowRatedCount db date_from date_to = 0 then 0
        else roundTo2 ((windowRatingSum db date_from date_to : ℚ)
          / (windowRatedCount db date_from date_to : ℚ)))
    ∧ (Ticket.get_statistics dbStats none none).average_rating = 3.6
    ∧ (Ticket.get_statistics dbStats none none).rating_distribution
        = [(1, 1), (3, 1), (4, 1), (5, 2)] := by
  refine ⟨?_, ?_, ?_⟩
  · intro db df dt
    have hsum := rated_sum_eq (inWindow df dt) db.tickets
    have hlen := rated_length_eq (inWindow df dt) db.tickets
    show (if (ratedRatings db df dt).isEmpty then (0 : ℚ)
        else roundTo2 (((ratedRatings db df dt).sum : ℚ)
          / ((ratedRatings db df dt).length : ℚ)))
      = if windowRatedCount db df dt = 0 then 0
        else roundTo2 ((windowRatingSum db df dt : ℚ) / (windowRatedCount db df dt : ℚ))
    by_cases h0 : windowRatedCount db df dt = 0
    · have hlen0 : (ratedRatings db df dt).length = 0 := by
        rw [ratedRatings] at *
        rw [hlen]
        exact h0
      have hnil : ratedRatings db df dt = [] := List.length_eq_zero.mp hlen0
      rw [hnil, if_pos h0]
      rfl
    · have hlenne : (ratedRatings db df dt).length = windowRatedCount db df dt := hlen
      have hne : (ratedRatings db df dt).isEmpty = false := by
        cases hr : ratedRatings db df dt with
        | nil => rw [hr] at hlenne; exact absurd hlenne.symm h0
        | cons x xs => rfl
      rw [hne, if_neg h0]
      simp only [Bool.false_eq_true, if_false]
      rw [show (ratedRatings db df dt).sum = windowRatingSum db df dt from hsum, hlenne]
  · have h : ratedRatings dbStats none none = [1, 3, 4, 5, 5] := by decide
    simp only [Ticket.get_statistics, h]
    norm_num [roundTo2, round_eq]
  · decide

/-- Claim C10: for every existing ticket and every tag name whose
lower-cased, trimmed form is non-empty and comma-free, a successful
`add_tag` round-trips: `get_by_id` lists the normalised name among the
ticket's tags.  With a comma inside the normalised name the round trip
fails, because retrieval splits the GROUP_CONCAT string on commas: the
tag `a,b` comes back as the two tags `a` and `b`. -/
theorem claim_C10 :
    (∀ (db : DB) (id : Nat) (tag : String) (now : Nat) (db' : DB) (b : Bool),
      Ticket.add_tag db id tag now = some (db', b) →
      normTag tag ≠ "" →
      (∀ c ∈ (normTag tag).toList, c ≠ ',') →
      ∃ v, Ticket.get_by_id db' id = some v ∧ normTag tag ∈ v.tags)
    ∧ (Ticket.get_by_id dbComma 1).map (fun v => v.tags) = some ["a", "b"]
    ∧ (∀ v, Ticket.get_by_id dbComma 1 = some v → normTag "a,b" ∉ v.tags) := by
  refine ⟨?_, by decide, by decide⟩
  intro db id tag now db' b hadd hne hcf
  cases hex : db.tickets.any (fun t => t.ticket_id == id) with
  | false =>
    rw [add_tag_notfound db id tag now hex] at hadd
    cases hadd
  | true =>
    rw [add_tag_found db id tag now hex] at hadd
    simp only [Option.some.injEq, Prod.mk.injEq] at hadd
    obtain ⟨hdb', _⟩ := hadd
    subst hdb'
    obtain ⟨t0, ht0mem, ht0id⟩ := List.any_eq_true.mp hex
    have hfs : (db.tickets.find? (fun t => t.ticket_id == id)).isSome := by
      rw [List.find?_isSome]
      exact ⟨t0, ht0mem, ht0id⟩
    obtain ⟨t1, ht1⟩ := Option.isSome_iff_exists.mp hfs
    have ht1id : t1.ticket_id = id := by
      simpa using List.find?_some ht1
    rw [Ticket.get_by_id.eq_def]
    dsimp only
    rw [ht1]
    refine ⟨_, rfl, ?_⟩
    have hm : normTag tag ∈ ((db.tags ++
        [({ tag_id := db.nextTagId, ticket_id := id,
            tag_name := normTag tag, created_at := now } : TagRow)]).filter
        (fun g => g.ticket_id == t1.ticket_id)).map (fun g => g.tag_name) :=
      List.mem_map_of_mem _ (List.mem_filter.mpr
        ⟨List.mem_append_right _ (List.mem_singleton.mpr rfl), by simp [ht1id]⟩)
    exact mem_tagsField_of_commaFree hm hne hcf

/-- Claim C10, witness: adding `Urgent` to ticket 1 round-trips as the
tag `urgent` in the `get_by_id` view. -/
theorem claim_C10_witness :
    Ticket.add_tag dbBase 1 "Urgent" 1 = some (dbTagOnce, true)
      ∧ normTag "Urgent" ≠ ""
      ∧ (∃ v, Ticket.get_by_id dbTagOnce 1 = some v ∧ normTag "Urgent" ∈ v.tags) :=
  ⟨by decide, by decide,
    claim_C10.1 dbBase 1 "Urgent" 1 dbTagOnce true (by decide) (by decide) (by decide)⟩

end FeedbackPortal
